import Mathlib

/-! Open Constructor: the JNI glue of `app.cc`.

A shallow embedding of `oc::App` (`open_constructor/app/src/main/jni/app.cc`).

Every member function of `App` becomes a function from the state of the
object to a `Run`: the state after the call, the sequence of events the call
performed (mutex operations, accesses to the data members, calls that leave
`app.cc`), and whether the call returned (it does not after `std::exit`).

Whatever is computed outside `app.cc` (the Tango SDK, `GLCamera`, `Scan`,
`TangoService`, `TangoTexturize`, `Scene`, `File3d`) is an oracle: a field of
`Env`. An `Env` is chosen per call, so successive calls may see different
answers of the SDK.
-/

set_option linter.dupNamespace false

namespace oc

/-! ## Scalars and plain data -/

/-- A value of a C++ `float` or `double`: not-a-number, a signed infinity, or
the dyadic rational `m * 2 ^ e`. -/
inductive Flt where
  | nan
  | inf (negative : Bool)
  | dyadic (m : Int) (e : Int)
deriving DecidableEq, Repr

/-- The comparison `a > b` of C++ on floating-point values: false as soon as
one side is not-a-number. -/
def Flt.gt : Flt → Flt → Bool
  | .nan, _ => false
  | _, .nan => false
  | .inf n1, .inf n2 => n2 && !n1
  | .inf n, .dyadic _ _ => !n
  | .dyadic _ _, .inf n => n
  | .dyadic m1 e1, .dyadic m2 e2 =>
    decide (m2 * 2 ^ (e2 - min e1 e2).toNat < m1 * 2 ^ (e1 - min e1 e2).toNat)

/-- The integer literal `n` converted to a floating-point value. -/
def Flt.ofInt (n : Int) : Flt := .dyadic n 0

/-- A `glm::mat4`, as its sixteen entries in column-major order. -/
abbrev Mat4 := List Flt

/-- The function `glm::make_mat4`: builds the matrix from the array of its entries. -/
def make_mat4 (matrix : List Flt) : Mat4 := matrix

/-- A `glm::quat`; the fields are in the order of the arguments of its constructor. -/
structure Quat where
  w : Flt
  x : Flt
  y : Flt
  z : Flt
deriving DecidableEq, Repr

/-- A pointer or handle into a component outside `app.cc`. -/
abbrev Handle := Nat

/-- The enumeration `TangoPoseStatusType` of the SDK. -/
inductive TangoPoseStatusType where
  | TANGO_POSE_INITIALIZING
  | TANGO_POSE_VALID
  | TANGO_POSE_INVALID
  | TANGO_POSE_UNKNOWN
deriving DecidableEq, Repr

/-- The enumeration `TangoCameraId` of the SDK. -/
inductive TangoCameraId where
  | TANGO_CAMERA_COLOR
  | TANGO_CAMERA_RGBIR
  | TANGO_CAMERA_FISHEYE
  | TANGO_CAMERA_DEPTH
deriving DecidableEq, Repr

/-- The enumeration `Tango3DR_Status` of the SDK. -/
inductive Tango3DR_Status where
  | TANGO_3DR_ERROR
  | TANGO_3DR_INSUFFICIENT_SPACE
  | TANGO_3DR_INVALID
  | TANGO_3DR_SUCCESS
deriving DecidableEq, Repr

/-- The enumeration `TangoErrorType` of the SDK: success, or another code. -/
inductive TangoErrorType where
  | TANGO_SUCCESS
  | other (code : Int)
deriving DecidableEq, Repr

/-- The coordinate frames of the SDK that `app.cc` names. -/
inductive TangoCoordinateFrameType where
  | TANGO_COORDINATE_FRAME_AREA_DESCRIPTION
  | TANGO_COORDINATE_FRAME_CAMERA_COLOR
  | TANGO_COORDINATE_FRAME_CAMERA_DEPTH
  | TANGO_COORDINATE_FRAME_DEVICE
deriving DecidableEq, Repr

/-- The engine conventions of the support library. -/
inductive TangoSupportEngineType where
  | TANGO_SUPPORT_ENGINE_TANGO
  | TANGO_SUPPORT_ENGINE_OPENGL
deriving DecidableEq, Repr

/-- The display rotations of the support library. -/
inductive TangoSupportRotation where
  | ROTATION_0
  | ROTATION_90
  | ROTATION_180
  | ROTATION_270
deriving DecidableEq, Repr

/-- The members of `TangoMatrixTransformData` that `app.cc` reads. -/
structure TangoMatrixTransformData where
  matrix : List Flt
  status_code : TangoPoseStatusType
deriving DecidableEq, Repr

/-- The members of `TangoPointCloud` that `app.cc` reads. -/
structure TangoPointCloud where
  timestamp : Flt
  num_points : Nat
  points : Handle
deriving DecidableEq, Repr

/-- The members of `TangoImageBuffer` that `app.cc` reads. -/
structure TangoImageBuffer where
  width : Nat
  height : Nat
  stride : Nat
  timestamp : Flt
  format : Int
  data : Handle
deriving DecidableEq, Repr

/-- The structure `Tango3DR_ImageBuffer`, as filled in by `onFrameAvailable`. -/
structure Tango3DR_ImageBuffer where
  width : Nat
  height : Nat
  stride : Nat
  timestamp : Flt
  format : Int
  data : Handle
deriving DecidableEq, Repr

/-- The structure `Tango3DR_PointCloud`, as filled in by `onFrameAvailable`. -/
structure Tango3DR_PointCloud where
  timestamp : Flt
  num_points : Nat
  points : Handle
deriving DecidableEq, Repr

/-- The structure `Tango3DR_Pose`: `translation[0..2]` and `orientation[0..3]`. -/
structure Tango3DR_Pose where
  translation : Flt × Flt × Flt
  orientation : Flt × Flt × Flt × Flt
deriving DecidableEq, Repr

/-- A grid index: three integers. -/
abbrev GridIndex := Int × Int × Int

/-- A `Tango3DR_GridIndexArray`: the indices it holds. -/
abbrev Tango3DR_GridIndexArray := List GridIndex

/-- The list `std::vector<std::pair<GridIndex, Tango3DR_Mesh*> >`. -/
abbrev MeshList := List (GridIndex × Handle)

/-- The constant `kSubdivisionSize` of `app.cc`. -/
def kSubdivisionSize : Int := 20000

/-- The constant `kTangoCoreMinimumVersion` of `app.cc`. -/
def kTangoCoreMinimumVersion : Int := 9377

/-! ## The member objects of `App` -/

/-- The class `TangoService` (`common/tango/service.h`): its data members. -/
structure TangoService where
  dataset : Handle
  config : Handle
  camera : Handle
  depth : Handle
  context : Handle
  pointcloud : Handle
  clearing_ : Bool
  res_ : Flt
  dmin_ : Flt
  dmax_ : Flt
  noise_ : Int
deriving DecidableEq, Repr

/-- The getter `TangoService::Dataset`. -/
def TangoService.Dataset (t : TangoService) : Handle := t.dataset

/-- The getter `TangoService::Context`. -/
def TangoService.Context (t : TangoService) : Handle := t.context

/-- The getter `TangoService::Pointcloud`. -/
def TangoService.Pointcloud (t : TangoService) : Handle := t.pointcloud

/-- The class `TangoTexturize` (`common/tango/texturize.h`): its data members. -/
structure TangoTexturize where
  poses : Int
  resolution : Flt
  event : String
  progressMsg : String
  context : Handle
  width : Int
  height : Int
deriving DecidableEq, Repr

/-- The state of the member `scan`; the class is declared outside the sources at hand. -/
structure Scan where
  state : Nat
deriving DecidableEq, Repr

/-- The state of the member `scene` (with its renderer, camera and static
meshes); the class is declared outside the sources at hand. -/
structure Scene where
  state : Nat
deriving DecidableEq, Repr

/-- The state of an `App` object: the data members that `app.cc` uses. -/
structure App where
  t3dr_is_running_ : Bool
  gyro : Bool
  landscape : Bool
  point_cloud_available_ : Bool
  zoom : Flt
  movex : Flt
  movey : Flt
  yaw : Flt
  pitch : Flt
  point_cloud_matrix_ : Mat4
  image_matrix : Mat4
  image_rotation : Quat
  front_cloud_ : TangoPointCloud
  scan : Scan
  tango : TangoService
  texturize : TangoTexturize
  scene : Scene
deriving DecidableEq, Repr

/-- The constructor `App::App()`: the member initializer list sets five
members; `u` holds what the default construction left in the others. -/
def App.App (u : App) : App :=
  { u with
    t3dr_is_running_ := false
    gyro := false
    landscape := false
    point_cloud_available_ := false
    zoom := Flt.ofInt 0 }

/-! ## Events -/

/-- The two mutexes of `App`. -/
inductive Mutex where
  | binder_mutex_
  | render_mutex_
deriving DecidableEq, Repr

/-- The plain data members of `App` whose accesses are recorded. -/
inductive Field where
  | t3dr_is_running_
  | gyro
  | landscape
  | point_cloud_available_
  | zoom
  | movex
  | movey
  | yaw
  | pitch
  | point_cloud_matrix_
  | image_matrix
  | image_rotation
  | front_cloud_
deriving DecidableEq, Repr

/-- A call that leaves `app.cc`, with its arguments (and its result, where a
later branch depends on it). -/
inductive Call where
  | TangoSupport_getMatrixTransformAtTime (timestamp : Flt)
      (base target : TangoCoordinateFrameType)
      (base_engine target_engine : TangoSupportEngineType)
      (rotation : TangoSupportRotation)
  | TangoSupport_updatePointCloud (manager : Handle) (point_cloud : TangoPointCloud)
  | TangoSupport_getLatestPointCloud (manager : Handle)
  | GLCamera_Extract3DRPose (mat : Mat4)
  | GLCamera_Diff (a b : Quat)
  | Tango3DR_update (context : Handle) (depth : Tango3DR_PointCloud)
      (depth_pose : Tango3DR_Pose) (image : Tango3DR_ImageBuffer)
      (image_pose : Tango3DR_Pose) (ret : Tango3DR_Status)
      (updated : Tango3DR_GridIndexArray)
  | Tango3DR_GridIndexArray_destroy (updated : Tango3DR_GridIndexArray)
  | texturize_Add (image : Tango3DR_ImageBuffer) (image_matrix : Mat4) (dataset : Handle)
  | texturize_Clear
  | texturize_Init (context : Handle) (dataset : String) (ret : Bool)
  | texturize_ApplyFrames (dataset : Handle)
  | texturize_Process (filename : String)
  | scan_Process (context : Handle) (updated : Tango3DR_GridIndexArray)
  | scan_Merge (added : MeshList)
  | scan_Clear
  | scan_Data
  | tango_SetupConfig (dataset : String)
  | tango_Connect
  | tango_Setup3DR (res dmin dmax : Flt) (noise : Int)
  | tango_Disconnect
  | tango_Clear
  | TangoSupport_GetTangoVersion (jni activity : Handle)
  | TangoService_setBinder (jni binder : Handle)
  | TangoService_connectOnPointCloudAvailable
  | TangoService_connectOnFrameAvailable (id : TangoCameraId)
  | std_exit
  | scene_DeleteResources
  | scene_InitGLContent
  | scene_SetupViewPort (width height : Int)
  | scene_camera_assign (movex movey yaw pitch : Flt)
  | scene_camera_SetTransformation (mat : Mat4)
  | scene_UpdateFrustum (zoom : Flt)
  | scene_camera_move (zoom : Flt)
  | scene_Render (gyro : Bool)
  | scene_renderer_Render (mesh : GridIndex × Handle)
  | File3d_ReadModel (filename : String) (writeAccess : Bool) (subdivision : Int)
  | File3d_WriteModel (filename : String) (writeAccess : Bool)
deriving DecidableEq, Repr

/-- One observable step of a member function. -/
inductive Event where
  | lock (m : Mutex)
  | unlock (m : Mutex)
  | read (f : Field)
  | write (f : Field)
  | call (c : Call)
deriving DecidableEq, Repr

/-- The trace of a call: its events in program order. -/
abbrev Trace := List Event

/-- The result of running a member function. -/
structure Run where
  app : App
  trace : Trace
  returned : Bool
deriving DecidableEq, Repr

/-! ## The oracles -/

/-- The answers of everything outside `app.cc` during one call. -/
structure Env where
  /-- The conversion `(float)` of a `double`. -/
  toFloat : Flt → Flt
  /-- The transform that `TangoSupport_getMatrixTransformAtTime` writes. -/
  TangoSupport_getMatrixTransformAtTime : Flt → TangoCoordinateFrameType →
    TangoCoordinateFrameType → TangoSupportEngineType → TangoSupportEngineType →
    TangoSupportRotation → TangoMatrixTransformData
  /-- The cloud `front_cloud_` points to after `TangoSupport_getLatestPointCloud`. -/
  TangoSupport_getLatestPointCloud : Handle → TangoPointCloud → TangoPointCloud
  /-- The static function `GLCamera::Extract3DRPose`. -/
  GLCamera_Extract3DRPose : Mat4 → Tango3DR_Pose
  /-- The static function `GLCamera::Diff`. -/
  GLCamera_Diff : Quat → Quat → Flt
  /-- The status `Tango3DR_update` returns and the array it writes to `t3dr_updated`. -/
  Tango3DR_update : Handle → Tango3DR_PointCloud → Tango3DR_Pose →
    Tango3DR_ImageBuffer → Tango3DR_Pose → Tango3DR_Status × Tango3DR_GridIndexArray
  /-- The effect of `TangoTexturize::Add`. -/
  texturize_Add : TangoTexturize → Tango3DR_ImageBuffer → Mat4 → Handle → TangoTexturize
  /-- The effect of `TangoTexturize::Clear`. -/
  texturize_Clear : TangoTexturize → TangoTexturize
  /-- The effect and the result of `TangoTexturize::Init`. -/
  texturize_Init : TangoTexturize → Handle → String → TangoTexturize × Bool
  /-- The effect of `TangoTexturize::ApplyFrames`. -/
  texturize_ApplyFrames : TangoTexturize → Handle → TangoTexturize
  /-- The effect of `TangoTexturize::Process`. -/
  texturize_Process : TangoTexturize → String → TangoTexturize
  /-- The effect and the result of `Scan::Process`. -/
  scan_Process : Scan → Handle → Tango3DR_GridIndexArray → Scan × MeshList
  /-- The effect of `Scan::Merge`. -/
  scan_Merge : Scan → MeshList → Scan
  /-- The effect of `Scan::Clear`. -/
  scan_Clear : Scan → Scan
  /-- The result of `Scan::Data`. -/
  scan_Data : Scan → MeshList
  /-- The effect of `TangoService::SetupConfig`. -/
  tango_SetupConfig : TangoService → String → TangoService
  /-- The effect of `TangoService::Connect`. -/
  tango_Connect : TangoService → TangoService
  /-- The effect of `TangoService::Setup3DR`. -/
  tango_Setup3DR : TangoService → Flt → Flt → Flt → Int → TangoService
  /-- The effect of `TangoService::Disconnect`. -/
  tango_Disconnect : TangoService → TangoService
  /-- The effect of `TangoService::Clear`. -/
  tango_Clear : TangoService → TangoService
  /-- The result of `TangoSupport_GetTangoVersion` and the version it writes. -/
  TangoSupport_GetTangoVersion : Handle → Handle → TangoErrorType × Int
  /-- The result of `TangoService_connectOnPointCloudAvailable`. -/
  TangoService_connectOnPointCloudAvailable : TangoErrorType
  /-- The result of `TangoService_connectOnFrameAvailable`. -/
  TangoService_connectOnFrameAvailable : TangoCameraId → TangoErrorType
  /-- The effect of `Scene::DeleteResources`. -/
  scene_DeleteResources : Scene → Scene
  /-- The effect of `Scene::InitGLContent`. -/
  scene_InitGLContent : Scene → Scene
  /-- The effect of `Scene::SetupViewPort`. -/
  scene_SetupViewPort : Scene → Int → Int → Scene
  /-- The three assignments to the camera when the gyroscope is off. -/
  scene_camera_assign : Scene → Flt → Flt → Flt → Flt → Scene
  /-- The effect of `camera.SetTransformation`. -/
  scene_camera_SetTransformation : Scene → Mat4 → Scene
  /-- The effect of `Scene::UpdateFrustum` at the position of the camera. -/
  scene_UpdateFrustum : Scene → Flt → Scene
  /-- The displacement of the camera by the zoom along its view direction. -/
  scene_camera_move : Scene → Flt → Scene
  /-- The effect of `Scene::Render`. -/
  scene_Render : Scene → Bool → Scene
  /-- The effect of `renderer->Render` on one mesh. -/
  scene_renderer_Render : Scene → GridIndex × Handle → Scene
  /-- The effect of `File3d::ReadModel` on `scene.static_meshes_`. -/
  File3d_ReadModel : Scene → String → Int → Scene

/-! ## The member functions of `App` -/

/-- The function `App::onPointCloudAvailable` (`app.cc`, lines 20-37). -/
def onPointCloudAvailable (env : Env) (s : App) (point_cloud : TangoPointCloud) : Run :=
  let t0 : Trace := [.read .t3dr_is_running_]
  if !s.t3dr_is_running_ then ⟨s, t0, true⟩ else
  let matrix_transform := env.TangoSupport_getMatrixTransformAtTime
    point_cloud.timestamp .TANGO_COORDINATE_FRAME_AREA_DESCRIPTION
    .TANGO_COORDINATE_FRAME_CAMERA_DEPTH .TANGO_SUPPORT_ENGINE_OPENGL
    .TANGO_SUPPORT_ENGINE_TANGO .ROTATION_0
  let t1 : Trace := t0 ++ [.call (.TangoSupport_getMatrixTransformAtTime
    point_cloud.timestamp .TANGO_COORDINATE_FRAME_AREA_DESCRIPTION
    .TANGO_COORDINATE_FRAME_CAMERA_DEPTH .TANGO_SUPPORT_ENGINE_OPENGL
    .TANGO_SUPPORT_ENGINE_TANGO .ROTATION_0)]
  if matrix_transform.status_code ≠ .TANGO_POSE_VALID then ⟨s, t1, true⟩ else
  ⟨{ s with
      point_cloud_matrix_ := make_mat4 matrix_transform.matrix
      point_cloud_available_ := true },
    t1 ++ [.lock .binder_mutex_,
      .write .point_cloud_matrix_,
      .call (.TangoSupport_updatePointCloud s.tango.Pointcloud point_cloud),
      .write .point_cloud_available_,
      .unlock .binder_mutex_],
    true⟩

/-- The function `App::onFrameAvailable` (`app.cc`, lines 39-105). The first
test is `id != TANGO_CAMERA_COLOR || !t3dr_is_running_`, so the flag is read
only for a colour frame. -/
def onFrameAvailable (env : Env) (s : App) (id : TangoCameraId)
    (buffer : TangoImageBuffer) : Run :=
  if id ≠ .TANGO_CAMERA_COLOR then ⟨s, [], true⟩ else
  let t0 : Trace := [.read .t3dr_is_running_]
  if !s.t3dr_is_running_ then ⟨s, t0, true⟩ else
  let matrix_transform := env.TangoSupport_getMatrixTransformAtTime
    buffer.timestamp .TANGO_COORDINATE_FRAME_AREA_DESCRIPTION
    .TANGO_COORDINATE_FRAME_CAMERA_COLOR .TANGO_SUPPORT_ENGINE_OPENGL
    .TANGO_SUPPORT_ENGINE_TANGO .ROTATION_0
  let t1 : Trace := t0 ++ [.call (.TangoSupport_getMatrixTransformAtTime
    buffer.timestamp .TANGO_COORDINATE_FRAME_AREA_DESCRIPTION
    .TANGO_COORDINATE_FRAME_CAMERA_COLOR .TANGO_SUPPORT_ENGINE_OPENGL
    .TANGO_SUPPORT_ENGINE_TANGO .ROTATION_0)]
  if matrix_transform.status_code ≠ .TANGO_POSE_VALID then ⟨s, t1, true⟩ else
  let t2 : Trace := t1 ++ [.lock .binder_mutex_, .read .point_cloud_available_]
  if !s.point_cloud_available_ then ⟨s, t2 ++ [.unlock .binder_mutex_], true⟩ else
  let image_matrix := make_mat4 matrix_transform.matrix
  let t3dr_image : Tango3DR_ImageBuffer :=
    { width := buffer.width
      height := buffer.height
      stride := buffer.stride
      timestamp := buffer.timestamp
      format := buffer.format
      data := buffer.data }
  let t3dr_image_pose := env.GLCamera_Extract3DRPose image_matrix
  let rot : Quat :=
    ⟨env.toFloat t3dr_image_pose.orientation.1,
     env.toFloat t3dr_image_pose.orientation.2.1,
     env.toFloat t3dr_image_pose.orientation.2.2.1,
     env.toFloat t3dr_image_pose.orientation.2.2.2⟩
  let diff := env.GLCamera_Diff rot s.image_rotation
  let s1 : App := { s with image_matrix := image_matrix, image_rotation := rot }
  let t3 : Trace := t2 ++ [.write .image_matrix,
    .read .image_matrix,
    .call (.GLCamera_Extract3DRPose image_matrix),
    .read .image_rotation,
    .call (.GLCamera_Diff rot s.image_rotation),
    .write .image_rotation]
  if diff.gt (Flt.ofInt 1) then ⟨s1, t3 ++ [.unlock .binder_mutex_], true⟩ else
  let front_cloud_ := env.TangoSupport_getLatestPointCloud s1.tango.Pointcloud s1.front_cloud_
  let s2 : App := { s1 with front_cloud_ := front_cloud_ }
  let t3dr_depth : Tango3DR_PointCloud :=
    { timestamp := front_cloud_.timestamp
      num_points := front_cloud_.num_points
      points := front_cloud_.points }
  let t3dr_depth_pose := env.GLCamera_Extract3DRPose s2.point_cloud_matrix_
  let upd := env.Tango3DR_update s2.tango.Context t3dr_depth t3dr_depth_pose
    t3dr_image t3dr_image_pose
  let ret := upd.1
  let t3dr_updated := upd.2
  let t4 : Trace := t3 ++ [.call (.TangoSupport_getLatestPointCloud s1.tango.Pointcloud),
    .write .front_cloud_,
    .read .front_cloud_,
    .read .point_cloud_matrix_,
    .call (.GLCamera_Extract3DRPose s2.point_cloud_matrix_),
    .call (.Tango3DR_update s2.tango.Context t3dr_depth t3dr_depth_pose
      t3dr_image t3dr_image_pose ret t3dr_updated)]
  if ret ≠ .TANGO_3DR_SUCCESS then ⟨s2, t4 ++ [.unlock .binder_mutex_], true⟩ else
  let s3 : App :=
    { s2 with texturize := env.texturize_Add s2.texturize t3dr_image s2.image_matrix
                s2.tango.Dataset }
  let processed := env.scan_Process s3.scan s3.tango.Context t3dr_updated
  let added := processed.2
  let s4 : App := { s3 with scan := processed.1 }
  let s5 : App := { s4 with scan := env.scan_Merge s4.scan added }
  let s6 : App := { s5 with point_cloud_available_ := false }
  ⟨s6,
    t4 ++ [.read .image_matrix,
      .call (.texturize_Add t3dr_image s2.image_matrix s2.tango.Dataset),
      .call (.scan_Process s3.tango.Context t3dr_updated),
      .lock .render_mutex_,
      .call (.scan_Merge added),
      .unlock .render_mutex_,
      .call (.Tango3DR_GridIndexArray_destroy t3dr_updated),
      .write .point_cloud_available_,
      .unlock .binder_mutex_],
    true⟩

/-- The function `App::OnCreate` (`app.cc`, lines 114-119). -/
def OnCreate (env : Env) (s : App) (jni activity : Handle) : Run :=
  let r := env.TangoSupport_GetTangoVersion jni activity
  let err := r.1
  let version := r.2
  let t0 : Trace := [.call (.TangoSupport_GetTangoVersion jni activity)]
  if err ≠ .TANGO_SUCCESS ∨ version < kTangoCoreMinimumVersion then
    ⟨s, t0 ++ [.call .std_exit], false⟩
  else ⟨s, t0, true⟩

/-- The function `App::OnTangoServiceConnected` (`app.cc`, lines 121-139). -/
def OnTangoServiceConnected (env : Env) (s : App) (jni binder : Handle)
    (res dmin dmax : Flt) (noise : Int) (land : Bool) (dataset : String) : Run :=
  let s1 : App := { s with landscape := land }
  let s2 : App := { s1 with tango := env.tango_SetupConfig s1.tango dataset }
  let t0 : Trace := [.write .landscape,
    .call (.TangoService_setBinder jni binder),
    .call (.tango_SetupConfig dataset),
    .call .TangoService_connectOnPointCloudAvailable]
  if env.TangoService_connectOnPointCloudAvailable ≠ .TANGO_SUCCESS then
    ⟨s2, t0 ++ [.call .std_exit], false⟩ else
  let t1 : Trace := t0 ++ [.call (.TangoService_connectOnFrameAvailable .TANGO_CAMERA_COLOR)]
  if env.TangoService_connectOnFrameAvailable .TANGO_CAMERA_COLOR ≠ .TANGO_SUCCESS then
    ⟨s2, t1 ++ [.call .std_exit], false⟩ else
  let s3 : App := { s2 with tango := env.tango_Connect s2.tango }
  let s4 : App := { s3 with tango := env.tango_Setup3DR s3.tango res dmin dmax noise }
  ⟨s4,
    t1 ++ [.lock .binder_mutex_,
      .call .tango_Connect,
      .call (.tango_Setup3DR res dmin dmax noise),
      .unlock .binder_mutex_],
    true⟩

/-- The function `App::OnPause` (`app.cc`, lines 141-146). -/
def OnPause (env : Env) (s : App) : Run :=
  let s1 : App := { s with tango := env.tango_Disconnect s.tango }
  let s2 : App := { s1 with scene := env.scene_DeleteResources s1.scene }
  ⟨s2,
    [.lock .render_mutex_,
      .call .tango_Disconnect,
      .call .scene_DeleteResources,
      .unlock .render_mutex_],
    true⟩

/-- The function `App::OnSurfaceCreated` (`app.cc`, lines 148-152). -/
def OnSurfaceCreated (env : Env) (s : App) : Run :=
  ⟨{ s with scene := env.scene_InitGLContent s.scene },
    [.lock .render_mutex_, .call .scene_InitGLContent, .unlock .render_mutex_],
    true⟩

/-- The function `App::OnSurfaceChanged` (`app.cc`, lines 154-158). -/
def OnSurfaceChanged (env : Env) (s : App) (width height : Int) : Run :=
  ⟨{ s with scene := env.scene_SetupViewPort s.scene width height },
    [.lock .render_mutex_, .call (.scene_SetupViewPort width height), .unlock .render_mutex_],
    true⟩

/-- The first part of `App::OnDrawFrame` (`app.cc`, lines 162-177): the
camera transformation. -/
def OnDrawFrame_camera (env : Env) (s : App) : Scene × Trace :=
  let t0 : Trace := [.read .gyro]
  if !s.gyro then
    (env.scene_camera_assign s.scene s.movex s.movey s.yaw s.pitch,
      t0 ++ [.read .movex, .read .movey, .read .yaw, .read .pitch,
        .call (.scene_camera_assign s.movex s.movey s.yaw s.pitch)])
  else
    let rotation : TangoSupportRotation := if s.landscape then .ROTATION_90 else .ROTATION_0
    let transform := env.TangoSupport_getMatrixTransformAtTime (Flt.ofInt 0)
      .TANGO_COORDINATE_FRAME_AREA_DESCRIPTION .TANGO_COORDINATE_FRAME_DEVICE
      .TANGO_SUPPORT_ENGINE_OPENGL .TANGO_SUPPORT_ENGINE_OPENGL rotation
    let t1 : Trace := t0 ++ [.read .landscape,
      .call (.TangoSupport_getMatrixTransformAtTime (Flt.ofInt 0)
        .TANGO_COORDINATE_FRAME_AREA_DESCRIPTION .TANGO_COORDINATE_FRAME_DEVICE
        .TANGO_SUPPORT_ENGINE_OPENGL .TANGO_SUPPORT_ENGINE_OPENGL rotation)]
    if transform.status_code = .TANGO_POSE_VALID then
      let sc1 := env.scene_camera_SetTransformation s.scene (make_mat4 transform.matrix)
      (env.scene_UpdateFrustum sc1 s.zoom,
        t1 ++ [.call (.scene_camera_SetTransformation (make_mat4 transform.matrix)),
          .read .zoom,
          .call (.scene_UpdateFrustum s.zoom)])
    else (s.scene, t1)

/-- The function `App::OnDrawFrame` (`app.cc`, lines 160-189). -/
def OnDrawFrame (env : Env) (s : App) : Run :=
  let cam := OnDrawFrame_camera env s
  let sc1 := env.scene_camera_move cam.1 s.zoom
  let sc2 := env.scene_Render sc1 s.gyro
  let meshes := env.scan_Data s.scan
  let sc3 := meshes.foldl env.scene_renderer_Render sc2
  ⟨{ s with scene := sc3 },
    [.lock .render_mutex_] ++ cam.2 ++
      [.read .zoom,
        .call (.scene_camera_move s.zoom),
        .read .gyro,
        .call (.scene_Render s.gyro),
        .call .scan_Data] ++
      meshes.map (fun m => .call (.scene_renderer_Render m)) ++
      [.unlock .render_mutex_],
    true⟩

/-- The function `App::OnToggleButtonClicked` (`app.cc`, lines 191-195). -/
def OnToggleButtonClicked (s : App) (t3dr_is_running : Bool) : Run :=
  ⟨{ s with t3dr_is_running_ := t3dr_is_running },
    [.lock .binder_mutex_, .write .t3dr_is_running_, .unlock .binder_mutex_],
    true⟩

/-- The function `App::OnClearButtonClicked` (`app.cc`, lines 197-205). -/
def OnClearButtonClicked (env : Env) (s : App) : Run :=
  ⟨{ s with
      scan := env.scan_Clear s.scan
      tango := env.tango_Clear s.tango
      texturize := env.texturize_Clear s.texturize },
    [.lock .binder_mutex_,
      .lock .render_mutex_,
      .call .scan_Clear,
      .call .tango_Clear,
      .call .texturize_Clear,
      .unlock .render_mutex_,
      .unlock .binder_mutex_],
    true⟩

/-- The function `App::Load` (`app.cc`, lines 207-214). -/
def Load (env : Env) (s : App) (filename : String) : Run :=
  ⟨{ s with scene := env.File3d_ReadModel s.scene filename kSubdivisionSize },
    [.lock .binder_mutex_,
      .lock .render_mutex_,
      .call (.File3d_ReadModel filename false kSubdivisionSize),
      .unlock .render_mutex_,
      .unlock .binder_mutex_],
    true⟩

/-- The function `App::Save` (`app.cc`, lines 216-234). -/
def Save (env : Env) (s : App) (filename dataset : String) : Run :=
  let t0 : Trace := [.lock .binder_mutex_, .lock .render_mutex_]
  let tEnd : Trace := [.unlock .render_mutex_, .unlock .binder_mutex_]
  if !dataset.isEmpty then
    let init := env.texturize_Init s.texturize s.tango.Context dataset
    let s1 : App := { s with texturize := init.1 }
    let t1 : Trace := t0 ++ [.call (.texturize_Init s.tango.Context dataset init.2)]
    if init.2 then
      let s2 : App :=
        { s1 with texturize := env.texturize_ApplyFrames s1.texturize s1.tango.Dataset }
      let s3 : App := { s2 with texturize := env.texturize_Process s2.texturize filename }
      ⟨s3,
        t1 ++ [.call (.texturize_ApplyFrames s1.tango.Dataset),
          .call (.texturize_Process filename)] ++ tEnd,
        true⟩
    else ⟨s1, t1 ++ tEnd, true⟩
  else ⟨s, t0 ++ tEnd, true⟩

/-- The function `App::Texturize` (`app.cc`, lines 236-267); the block that
is commented out in the source contributes nothing, so the argument
`dataset` is not used. -/
def Texturize (env : Env) (s : App) (filename _dataset : String) : Run :=
  let s1 : App := { s with scan := env.scan_Clear s.scan }
  let s2 : App := { s1 with tango := env.tango_Clear s1.tango }
  let s3 : App :=
    { s2 with scene := env.File3d_ReadModel s2.scene filename kSubdivisionSize }
  ⟨s3,
    [.lock .binder_mutex_,
      .lock .render_mutex_,
      .call .scan_Clear,
      .call .tango_Clear,
      .call (.File3d_ReadModel filename false kSubdivisionSize),
      .call (.File3d_WriteModel filename true),
      .unlock .render_mutex_,
      .unlock .binder_mutex_],
    true⟩

/-- One invocation of a member function of `App`, with its arguments. -/
inductive Op where
  | onPointCloudAvailable (point_cloud : TangoPointCloud)
  | onFrameAvailable (id : TangoCameraId) (buffer : TangoImageBuffer)
  | OnCreate (jni activity : Handle)
  | OnTangoServiceConnected (jni binder : Handle) (res dmin dmax : Flt) (noise : Int)
      (land : Bool) (dataset : String)
  | OnPause
  | OnSurfaceCreated
  | OnSurfaceChanged (width height : Int)
  | OnDrawFrame
  | OnToggleButtonClicked (t3dr_is_running : Bool)
  | OnClearButtonClicked
  | Load (filename : String)
  | Save (filename dataset : String)
  | Texturize (filename dataset : String)
deriving DecidableEq, Repr

/-- Runs one invocation on the state `s` with the oracles `env`. -/
def Op.run (env : Env) (s : App) : Op → Run
  | .onPointCloudAvailable point_cloud => oc.onPointCloudAvailable env s point_cloud
  | .onFrameAvailable id buffer => oc.onFrameAvailable env s id buffer
  | .OnCreate jni activity => oc.OnCreate env s jni activity
  | .OnTangoServiceConnected jni binder res dmin dmax noise land dataset =>
    oc.OnTangoServiceConnected env s jni binder res dmin dmax noise land dataset
  | .OnPause => oc.OnPause env s
  | .OnSurfaceCreated => oc.OnSurfaceCreated env s
  | .OnSurfaceChanged width height => oc.OnSurfaceChanged env s width height
  | .OnDrawFrame => oc.OnDrawFrame env s
  | .OnToggleButtonClicked t3dr_is_running => oc.OnToggleButtonClicked s t3dr_is_running
  | .OnClearButtonClicked => oc.OnClearButtonClicked env s
  | .Load filename => oc.Load env s filename
  | .Save filename dataset => oc.Save env s filename dataset
  | .Texturize filename dataset => oc.Texturize env s filename dataset

/-- Runs a sequence of invocations one after the other, each with its own
oracles; the sequence ends at an invocation that does not return. -/
def runSeq (s : App) : List (Env × Op) → Run
  | [] => ⟨s, [], true⟩
  | p :: rest =>
    let r := p.2.run p.1 s
    if r.returned then
      let r2 := runSeq r.app rest
      ⟨r2.app, r.trace ++ r2.trace, r2.returned⟩
    else r

/-! ## Reading a trace -/

/-- Recognises a call of `Tango3DR_update`. -/
def Event.isUpdate : Event → Bool
  | .call (.Tango3DR_update _ _ _ _ _ _ _) => true
  | _ => false

/-- Recognises a call of `Tango3DR_update` that returned `TANGO_3DR_SUCCESS`. -/
def Event.isUpdateSuccess : Event → Bool
  | .call (.Tango3DR_update _ _ _ _ _ .TANGO_3DR_SUCCESS _) => true
  | _ => false

/-- Recognises the staging of a cloud: a call of `TangoSupport_updatePointCloud`. -/
def Event.isStaging : Event → Bool
  | .call (.TangoSupport_updatePointCloud _ _) => true
  | _ => false

/-- Recognises a call of `scan.Process`. -/
def Event.isScanProcess : Event → Bool
  | .call (.scan_Process _ _) => true
  | _ => false

/-- Recognises a call of `scan.Merge`. -/
def Event.isScanMerge : Event → Bool
  | .call (.scan_Merge _) => true
  | _ => false

/-- Recognises a call of `texturize.Add`. -/
def Event.isTexturizeAdd : Event → Bool
  | .call (.texturize_Add _ _ _) => true
  | _ => false

/-- Recognises a call of any member function of `texturize`. -/
def Event.isTexturize : Event → Bool
  | .call (.texturize_Add _ _ _) => true
  | .call .texturize_Clear => true
  | .call (.texturize_Init _ _ _) => true
  | .call (.texturize_ApplyFrames _) => true
  | .call (.texturize_Process _) => true
  | _ => false

/-- Recognises a call that writes a file: `texturize.Process` and `File3d::WriteModel`. -/
def Event.isFileWrite : Event → Bool
  | .call (.texturize_Process _) => true
  | .call (.File3d_WriteModel _ _) => true
  | _ => false

/-- The pose that `onFrameAvailable` asks the SDK for: the colour camera at
the timestamp of the frame. -/
def framePose (env : Env) (buffer : TangoImageBuffer) : TangoMatrixTransformData :=
  env.TangoSupport_getMatrixTransformAtTime buffer.timestamp
    .TANGO_COORDINATE_FRAME_AREA_DESCRIPTION .TANGO_COORDINATE_FRAME_CAMERA_COLOR
    .TANGO_SUPPORT_ENGINE_OPENGL .TANGO_SUPPORT_ENGINE_TANGO .ROTATION_0

/-- The rotation of a frame: the orientation of the pose extracted from its
matrix, converted to `float`. -/
def frameRotation (env : Env) (buffer : TangoImageBuffer) : Quat :=
  let pose := env.GLCamera_Extract3DRPose (make_mat4 (framePose env buffer).matrix)
  ⟨env.toFloat pose.orientation.1, env.toFloat pose.orientation.2.1,
   env.toFloat pose.orientation.2.2.1, env.toFloat pose.orientation.2.2.2⟩

/-- The pose that `onPointCloudAvailable` asks the SDK for: the depth camera
at the timestamp of the cloud. -/
def cloudPose (env : Env) (point_cloud : TangoPointCloud) : TangoMatrixTransformData :=
  env.TangoSupport_getMatrixTransformAtTime point_cloud.timestamp
    .TANGO_COORDINATE_FRAME_AREA_DESCRIPTION .TANGO_COORDINATE_FRAME_CAMERA_DEPTH
    .TANGO_SUPPORT_ENGINE_OPENGL .TANGO_SUPPORT_ENGINE_TANGO .ROTATION_0

/-- The image buffer that `onFrameAvailable` hands to the reconstruction. -/
def frameImage (buffer : TangoImageBuffer) : Tango3DR_ImageBuffer :=
  { width := buffer.width
    height := buffer.height
    stride := buffer.stride
    timestamp := buffer.timestamp
    format := buffer.format
    data := buffer.data }

/-- The answer of `Tango3DR_update` to the call that `onFrameAvailable` makes
for the frame `buffer` in the state `s`. -/
def frameUpdate (env : Env) (s : App) (buffer : TangoImageBuffer) :
    Tango3DR_Status × Tango3DR_GridIndexArray :=
  let front := env.TangoSupport_getLatestPointCloud s.tango.Pointcloud s.front_cloud_
  env.Tango3DR_update s.tango.Context
    { timestamp := front.timestamp, num_points := front.num_points, points := front.points }
    (env.GLCamera_Extract3DRPose s.point_cloud_matrix_)
    (frameImage buffer)
    (env.GLCamera_Extract3DRPose (make_mat4 (framePose env buffer).matrix))

/-- The five conditions under which `onFrameAvailable` reaches `Tango3DR_update`. -/
def reachesUpdate (env : Env) (s : App) (id : TangoCameraId) (buffer : TangoImageBuffer) :
    Prop :=
  id = .TANGO_CAMERA_COLOR ∧ s.t3dr_is_running_ = true ∧
  (framePose env buffer).status_code = .TANGO_POSE_VALID ∧
  s.point_cloud_available_ = true ∧
  (env.GLCamera_Diff (frameRotation env buffer) s.image_rotation).gt (Flt.ofInt 1) = false

instance (env : Env) (s : App) (id : TangoCameraId) (buffer : TangoImageBuffer) :
    Decidable (reachesUpdate env s id buffer) := by
  unfold reachesUpdate
  infer_instance

/-- What `Tango3DR_update` returned: its status and the array it wrote. -/
def Event.updateResult : Event → Option (Tango3DR_Status × Tango3DR_GridIndexArray)
  | .call (.Tango3DR_update _ _ _ _ _ ret updated) => some (ret, updated)
  | _ => none

/-! ## Mutexes along a trace -/

/-- Recognises the acquisition of the mutex `m`. -/
def Event.isLock (m : Mutex) : Event → Bool
  | .lock k => k == m
  | _ => false

/-- Recognises the release of the mutex `m`. -/
def Event.isUnlock (m : Mutex) : Event → Bool
  | .unlock k => k == m
  | _ => false

/-- The mutexes held after an event, the most recently acquired first. -/
def heldAfter (held : List Mutex) : Event → List Mutex
  | .lock m => m :: held
  | .unlock m => held.erase m
  | _ => held

/-- The mutexes held at the end of a trace. -/
def heldAtEnd (held : List Mutex) (tr : Trace) : List Mutex :=
  tr.foldl heldAfter held

/-- The discipline of a non-recursive mutex along a trace: a mutex is never
locked while held and never unlocked while not held. -/
def lockDiscipline : List Mutex → Trace → Bool
  | _, [] => true
  | held, e :: tr =>
    (match e with
      | .lock m => !held.contains m
      | .unlock m => held.contains m
      | _ => true) &&
    lockDiscipline (heldAfter held e) tr

/-- When both mutexes are held, `binder_mutex_` is the one acquired first. -/
def binderFirst (held : List Mutex) : Bool :=
  !(held.contains .binder_mutex_ && held.contains .render_mutex_) ||
    decide (held.indexOf Mutex.render_mutex_ < held.indexOf Mutex.binder_mutex_)

/-- The lock order along a trace: `binder_mutex_` is not acquired while
`render_mutex_` is held, it is not released while `render_mutex_` is held,
and whenever both are held `binder_mutex_` was acquired first. -/
def lockOrder : List Mutex → Trace → Bool
  | _, [] => true
  | held, e :: tr =>
    (match e with
      | .lock .binder_mutex_ => !held.contains .render_mutex_
      | .unlock .binder_mutex_ => !held.contains .render_mutex_
      | _ => true) &&
    binderFirst (heldAfter held e) &&
    lockOrder (heldAfter held e) tr

/-- The data members shared between the sensor callbacks and the handlers of
the user interface. -/
def Field.isShared : Field → Bool
  | .t3dr_is_running_ => true
  | .point_cloud_available_ => true
  | .point_cloud_matrix_ => true
  | .image_matrix => true
  | .image_rotation => true
  | _ => false

/-- Recognises a read or a write of a shared data member. -/
def Event.isSharedAccess : Event → Bool
  | .read f => f.isShared
  | .write f => f.isShared
  | _ => false

/-- Recognises a read of `t3dr_is_running_`. -/
def Event.isFlagRead : Event → Bool
  | .read .t3dr_is_running_ => true
  | _ => false

/-- Every event of the trace that `p` selects happens while `binder_mutex_` is held. -/
def underBinder (p : Event → Bool) : List Mutex → Trace → Bool
  | _, [] => true
  | held, e :: tr =>
    (!p e || held.contains .binder_mutex_) && underBinder p (heldAfter held e) tr

/-- The four invocations through which a cloud is staged and consumed: the
two sensor callbacks and the two buttons. -/
def Op.isScanning : Op → Bool
  | .onPointCloudAvailable _ => true
  | .onFrameAvailable _ _ => true
  | .OnToggleButtonClicked _ => true
  | .OnClearButtonClicked => true
  | _ => false

/-! ## Sample inputs -/

/-- Oracles of a call in which the SDK answers favourably: every pose is
valid, every call succeeds, the rotation difference is `1/2`; the member
objects are left as they are. -/
def Env.nominal : Env where
  toFloat := fun x => x
  TangoSupport_getMatrixTransformAtTime := fun _ _ _ _ _ _ =>
    ⟨[Flt.ofInt 1, Flt.ofInt 0, Flt.ofInt 0, Flt.ofInt 0], .TANGO_POSE_VALID⟩
  TangoSupport_getLatestPointCloud := fun _ c => c
  GLCamera_Extract3DRPose := fun _ =>
    ⟨(Flt.ofInt 0, Flt.ofInt 0, Flt.ofInt 0),
     (Flt.ofInt 1, Flt.ofInt 0, Flt.ofInt 0, Flt.ofInt 0)⟩
  GLCamera_Diff := fun _ _ => .dyadic 1 (-1)
  Tango3DR_update := fun _ _ _ _ _ => (.TANGO_3DR_SUCCESS, [(0, 0, 0), (0, 0, 1)])
  texturize_Add := fun t _ _ _ => { t with poses := t.poses + 1 }
  texturize_Clear := fun t => { t with poses := 0 }
  texturize_Init := fun t _ _ => (t, true)
  texturize_ApplyFrames := fun t _ => t
  texturize_Process := fun t _ => t
  scan_Process := fun sc _ updated => (sc, updated.map fun g => (g, 7))
  scan_Merge := fun sc added => ⟨sc.state + added.length⟩
  scan_Clear := fun _ => ⟨0⟩
  scan_Data := fun _ => [((0, 0, 0), 7)]
  tango_SetupConfig := fun t _ => t
  tango_Connect := fun t => t
  tango_Setup3DR := fun t res dmin dmax noise =>
    { t with res_ := res, dmin_ := dmin, dmax_ := dmax, noise_ := noise }
  tango_Disconnect := fun t => t
  tango_Clear := fun t => t
  TangoSupport_GetTangoVersion := fun _ _ => (.TANGO_SUCCESS, 9377)
  TangoService_connectOnPointCloudAvailable := .TANGO_SUCCESS
  TangoService_connectOnFrameAvailable := fun _ => .TANGO_SUCCESS
  scene_DeleteResources := fun sc => sc
  scene_InitGLContent := fun sc => sc
  scene_SetupViewPort := fun sc _ _ => sc
  scene_camera_assign := fun sc _ _ _ _ => sc
  scene_camera_SetTransformation := fun sc _ => sc
  scene_UpdateFrustum := fun sc _ => sc
  scene_camera_move := fun sc _ => sc
  scene_Render := fun sc _ => sc
  scene_renderer_Render := fun sc _ => sc
  File3d_ReadModel := fun sc _ _ => ⟨sc.state + 1⟩

/-- Oracles as in `Env.nominal`, except that the rotation difference is `2`. -/
def Env.turned : Env :=
  { Env.nominal with GLCamera_Diff := fun _ _ => .dyadic 2 0 }

/-- Oracles as in `Env.nominal`, except that `Tango3DR_update` reports an error. -/
def Env.updateFails : Env :=
  { Env.nominal with Tango3DR_update := fun _ _ _ _ _ => (.TANGO_3DR_ERROR, []) }

/-- A freshly constructed `App`. -/
def App.fresh : oc.App :=
  App.App
    { t3dr_is_running_ := true
      gyro := true
      landscape := true
      point_cloud_available_ := true
      zoom := .nan
      movex := Flt.ofInt 0
      movey := Flt.ofInt 0
      yaw := Flt.ofInt 0
      pitch := Flt.ofInt 0
      point_cloud_matrix_ := []
      image_matrix := []
      image_rotation := ⟨Flt.ofInt 1, Flt.ofInt 0, Flt.ofInt 0, Flt.ofInt 0⟩
      front_cloud_ := ⟨Flt.ofInt 0, 0, 0⟩
      scan := ⟨0⟩
      tango := ⟨1, 2, 3, 4, 5, 6, false, Flt.ofInt 0, Flt.ofInt 0, Flt.ofInt 0, 0⟩
      texturize := ⟨0, Flt.ofInt 0, "", "", 0, 0, 0⟩
      scene := ⟨0⟩ }

/-- A running `App` without a staged cloud. -/
def App.running : oc.App := { App.fresh with t3dr_is_running_ := true }

/-- A running `App` with a staged cloud. -/
def App.staged : oc.App := { App.running with point_cloud_available_ := true }

/-- A depth cloud. -/
def sampleCloud : TangoPointCloud := ⟨.dyadic 5 (-1), 100, 11⟩

/-- A colour frame. -/
def sampleFrame : TangoImageBuffer := ⟨640, 480, 640, .dyadic 11 (-2), 1, 12⟩

/-- A short session: scanning is switched on, a cloud arrives, then two
colour frames. -/
def sampleSession : List (Env × Op) :=
  [(Env.nominal, .OnToggleButtonClicked true),
   (Env.nominal, .onPointCloudAvailable sampleCloud),
   (Env.nominal, .onFrameAvailable .TANGO_CAMERA_COLOR sampleFrame),
   (Env.nominal, .onFrameAvailable .TANGO_CAMERA_COLOR sampleFrame)]

/-! ## Calls inside a trace

The meshes that `OnDrawFrame` renders contribute one call each; calls are
neither mutex operations nor accesses to data members. -/

theorem lockDiscipline_calls {α : Type} (f : α → Call) (l : List α) (held : List Mutex)
    (rest : Trace) :
    lockDiscipline held (l.map (fun m => Event.call (f m)) ++ rest) =
      lockDiscipline held rest := by
  induction l with
  | nil => rfl
  | cons a l ih => simpa [lockDiscipline, heldAfter] using ih

theorem lockOrder_calls {α : Type} (f : α → Call) (l : List α) (held : List Mutex)
    (rest : Trace) (h : binderFirst held = true) :
    lockOrder held (l.map (fun m => Event.call (f m)) ++ rest) = lockOrder held rest := by
  induction l with
  | nil => rfl
  | cons a l ih => simpa [lockOrder, heldAfter, h] using ih

theorem underBinder_calls {α : Type} (p : Event → Bool) (hp : ∀ c, p (.call c) = false)
    (f : α → Call) (l : List α) (held : List Mutex) (rest : Trace) :
    underBinder p held (l.map (fun m => Event.call (f m)) ++ rest) =
      underBinder p held rest := by
  induction l with
  | nil => rfl
  | cons a l ih => simpa [underBinder, heldAfter, hp] using ih

theorem countP_calls {α : Type} (p : Event → Bool) (hp : ∀ c, p (.call c) = false)
    (f : α → Call) (l : List α) :
    (l.map (fun m => Event.call (f m))).countP p = 0 := by
  induction l with
  | nil => rfl
  | cons a l ih => simp [hp, ih]

/-! ## The sensor callbacks -/

/-- Claim C1: `onFrameAvailable` calls `Tango3DR_update` exactly once when the
frame comes from the colour camera, the reconstruction is running, the pose at
the timestamp of the frame is valid, a cloud is staged and the rotation
difference to the stored `image_rotation` is not greater than 1; when one of
the five conditions fails it does not call it. -/
theorem onFrameAvailable_update_count (env : Env) (s : App) (id : TangoCameraId)
    (buffer : TangoImageBuffer) :
    (onFrameAvailable env s id buffer).trace.countP Event.isUpdate =
      if reachesUpdate env s id buffer then 1 else 0 := by
  unfold reachesUpdate framePose frameRotation
  simp only [onFrameAvailable]
  split_ifs <;> simp_all [Event.isUpdate, framePose, make_mat4]

/-- Claim C2: `onPointCloudAvailable` stages the cloud exactly when the
reconstruction is running and the pose at the timestamp of the cloud is valid.
Then `point_cloud_matrix_` is the matrix of that pose, `point_cloud_available_`
is true and the point-cloud manager is updated once, with this cloud; otherwise
the state is unchanged and the manager is not updated. -/
theorem onPointCloudAvailable_stages_iff (env : Env) (s : App)
    (point_cloud : TangoPointCloud) :
    if s.t3dr_is_running_ = true ∧
        (cloudPose env point_cloud).status_code = .TANGO_POSE_VALID then
      (onPointCloudAvailable env s point_cloud).app =
          { s with
            point_cloud_matrix_ := make_mat4 (cloudPose env point_cloud).matrix
            point_cloud_available_ := true } ∧
        (onPointCloudAvailable env s point_cloud).trace.filter Event.isStaging =
          [.call (.TangoSupport_updatePointCloud s.tango.Pointcloud point_cloud)]
    else
      (onPointCloudAvailable env s point_cloud).app = s ∧
        (onPointCloudAvailable env s point_cloud).trace.filter Event.isStaging = [] := by
  unfold cloudPose
  simp only [onPointCloudAvailable]
  split_ifs <;> simp_all [Event.isStaging, List.filter]

/-- Claim C4: in `onFrameAvailable`, `scan.Process` and `scan.Merge` are each
called exactly once when `Tango3DR_update` is reached and returns
`TANGO_3DR_SUCCESS`, and not at all otherwise; `Process` receives the array
that this call of `Tango3DR_update` wrote, and `Merge` receives the list that
`Process` returned. -/
theorem onFrameAvailable_process_merge (env : Env) (s : App) (id : TangoCameraId)
    (buffer : TangoImageBuffer) :
    if reachesUpdate env s id buffer ∧
        (frameUpdate env s buffer).1 = .TANGO_3DR_SUCCESS then
      (onFrameAvailable env s id buffer).trace.filterMap Event.updateResult =
          [frameUpdate env s buffer] ∧
        (onFrameAvailable env s id buffer).trace.filter Event.isScanProcess =
          [.call (.scan_Process s.tango.Context (frameUpdate env s buffer).2)] ∧
        (onFrameAvailable env s id buffer).trace.filter Event.isScanMerge =
          [.call (.scan_Merge
            (env.scan_Process s.scan s.tango.Context (frameUpdate env s buffer).2).2)]
    else
      (onFrameAvailable env s id buffer).trace.filter Event.isScanProcess = [] ∧
        (onFrameAvailable env s id buffer).trace.filter Event.isScanMerge = [] := by
  unfold reachesUpdate frameUpdate frameImage framePose frameRotation
  simp only [onFrameAvailable]
  split_ifs <;>
    simp_all [Event.isScanProcess, Event.isScanMerge, Event.updateResult, List.filter,
      List.filterMap, framePose, make_mat4, Prod.ext_iff]

/-- The flag `t3dr_is_running_` is not changed by `onFrameAvailable`. -/
theorem onFrameAvailable_running (env : Env) (s : App) (id : TangoCameraId)
    (buffer : TangoImageBuffer) :
    (onFrameAvailable env s id buffer).app.t3dr_is_running_ = s.t3dr_is_running_ := by
  simp only [onFrameAvailable]
  split_ifs <;> rfl

/-- A colour frame that reaches the rotation check is compared with the
stored `image_rotation`. -/
theorem onFrameAvailable_compares (env : Env) (s : App) (buffer : TangoImageBuffer)
    (hrun : s.t3dr_is_running_ = true)
    (hpose : (framePose env buffer).status_code = .TANGO_POSE_VALID)
    (hcloud : s.point_cloud_available_ = true) :
    Event.call (.GLCamera_Diff (frameRotation env buffer) s.image_rotation) ∈
      (onFrameAvailable env s .TANGO_CAMERA_COLOR buffer).trace := by
  simp only [frameRotation, framePose, make_mat4] at *
  simp only [onFrameAvailable]
  split_ifs <;> simp_all [make_mat4]

/-- The state and the calls of a colour frame that is rejected after the
rotation check was reached. -/
theorem onFrameAvailable_rejected (env : Env) (s : App) (buffer : TangoImageBuffer)
    (hrun : s.t3dr_is_running_ = true)
    (hpose : (framePose env buffer).status_code = .TANGO_POSE_VALID)
    (hcloud : s.point_cloud_available_ = true)
    (hrej : (env.GLCamera_Diff (frameRotation env buffer) s.image_rotation).gt (Flt.ofInt 1)
        = true ∨ (frameUpdate env s buffer).1 ≠ .TANGO_3DR_SUCCESS) :
    (onFrameAvailable env s .TANGO_CAMERA_COLOR buffer).app.image_matrix =
      make_mat4 (framePose env buffer).matrix ∧
    (onFrameAvailable env s .TANGO_CAMERA_COLOR buffer).app.image_rotation =
      frameRotation env buffer ∧
    (onFrameAvailable env s .TANGO_CAMERA_COLOR buffer).app.point_cloud_available_ = true ∧
    (onFrameAvailable env s .TANGO_CAMERA_COLOR buffer).trace.countP Event.isTexturizeAdd = 0 ∧
    (onFrameAvailable env s .TANGO_CAMERA_COLOR buffer).trace.countP Event.isScanProcess = 0 ∧
    (onFrameAvailable env s .TANGO_CAMERA_COLOR buffer).trace.countP Event.isScanMerge = 0 := by
  simp only [frameUpdate, frameImage, frameRotation, framePose, make_mat4] at *
  simp only [onFrameAvailable]
  split_ifs <;>
    simp_all [Event.isScanProcess, Event.isScanMerge, Event.isTexturizeAdd, make_mat4]

/-- Claim C10: a frame that reaches the rotation check (colour camera,
running, valid pose, cloud staged) and is then rejected, because the rotation
difference is greater than 1 or because `Tango3DR_update` does not return
`TANGO_3DR_SUCCESS`, leaves `image_matrix` and `image_rotation` overwritten
with the pose of the rejected frame, so that the next frame is compared with
the rejected one; `point_cloud_available_` is still true, and none of
`texturize.Add`, `scan.Process`, `scan.Merge` has been called. -/
theorem rejected_frame_effect (env : Env) (s : App) (id : TangoCameraId)
    (buffer : TangoImageBuffer)
    (hid : id = .TANGO_CAMERA_COLOR) (hrun : s.t3dr_is_running_ = true)
    (hpose : (framePose env buffer).status_code = .TANGO_POSE_VALID)
    (hcloud : s.point_cloud_available_ = true)
    (hrej : (env.GLCamera_Diff (frameRotation env buffer) s.image_rotation).gt (Flt.ofInt 1)
        = true ∨ (frameUpdate env s buffer).1 ≠ .TANGO_3DR_SUCCESS) :
    (onFrameAvailable env s id buffer).app.image_matrix =
      make_mat4 (framePose env buffer).matrix ∧
    (onFrameAvailable env s id buffer).app.image_rotation = frameRotation env buffer ∧
    (onFrameAvailable env s id buffer).app.point_cloud_available_ = true ∧
    (onFrameAvailable env s id buffer).trace.countP Event.isTexturizeAdd = 0 ∧
    (onFrameAvailable env s id buffer).trace.countP Event.isScanProcess = 0 ∧
    (onFrameAvailable env s id buffer).trace.countP Event.isScanMerge = 0 ∧
    ∀ (next : Env) (frame : TangoImageBuffer),
      (framePose next frame).status_code = .TANGO_POSE_VALID →
      Event.call (.GLCamera_Diff (frameRotation next frame) (frameRotation env buffer)) ∈
        (onFrameAvailable next (onFrameAvailable env s id buffer).app
          .TANGO_CAMERA_COLOR frame).trace := by
  subst hid
  obtain ⟨h1, h2, h3, h4, h5, h6⟩ :=
    onFrameAvailable_rejected env s buffer hrun hpose hcloud hrej
  refine ⟨h1, h2, h3, h4, h5, h6, ?_⟩
  intro next frame hnext
  have hcmp := onFrameAvailable_compares next
    (onFrameAvailable env s .TANGO_CAMERA_COLOR buffer).app frame
    ((onFrameAvailable_running env s _ buffer).trans hrun) hnext h3
  rw [h2] at hcmp
  exact hcmp

/-- A frame after a turn of the device: the rotation difference is 2, the
frame is rejected and its rotation is kept for the next comparison. -/
theorem rejected_frame_effect_witness :
    (App.staged.t3dr_is_running_ = true ∧
      (framePose Env.turned sampleFrame).status_code = .TANGO_POSE_VALID ∧
      App.staged.point_cloud_available_ = true ∧
      (Env.turned.GLCamera_Diff (frameRotation Env.turned sampleFrame)
        App.staged.image_rotation).gt (Flt.ofInt 1) = true) ∧
    (onFrameAvailable Env.turned App.staged .TANGO_CAMERA_COLOR sampleFrame).app.image_rotation
        = frameRotation Env.turned sampleFrame ∧
    (onFrameAvailable Env.turned App.staged
        .TANGO_CAMERA_COLOR sampleFrame).app.point_cloud_available_ = true :=
  ⟨by decide,
    (rejected_frame_effect Env.turned App.staged .TANGO_CAMERA_COLOR sampleFrame rfl
      (by decide) (by decide) (by decide) (Or.inl (by decide))).2.1,
    (rejected_frame_effect Env.turned App.staged .TANGO_CAMERA_COLOR sampleFrame rfl
      (by decide) (by decide) (by decide) (Or.inl (by decide))).2.2.1⟩

/-! ## A staged cloud is consumed at most once -/

/-- One invocation of a sensor callback or of a button: it returns; a
successful update uses up the staged cloud; without a staged cloud and without
staging there is no update. -/
theorem scanning_step (env : Env) (s : App) (op : Op) (h : op.isScanning = true) :
    (op.run env s).returned = true ∧
    (op.run env s).trace.countP Event.isUpdateSuccess +
        (if (op.run env s).app.point_cloud_available_ then 1 else 0) ≤
      (op.run env s).trace.countP Event.isStaging +
        (if s.point_cloud_available_ then 1 else 0) ∧
    (s.point_cloud_available_ = false →
      (op.run env s).trace.countP Event.isStaging = 0 →
      (op.run env s).trace.countP Event.isUpdate = 0 ∧
        (op.run env s).app.point_cloud_available_ = false) ∧
    (0 < (op.run env s).trace.countP Event.isUpdateSuccess →
      (op.run env s).app.point_cloud_available_ = false) := by
  cases op <;> simp only [Op.isScanning] at h <;>
    simp only [Op.run, onPointCloudAvailable, onFrameAvailable, OnToggleButtonClicked,
      OnClearButtonClicked] <;>
    (try split_ifs) <;>
    simp_all [Event.isUpdateSuccess, Event.isStaging, Event.isUpdate]

/-- The invariant of a session: the successful updates, plus one if a cloud is
still staged, never exceed the stagings, plus one if a cloud was staged at the
start. -/
theorem runSeq_scanning (ops : List (Env × Op)) (hops : ∀ p ∈ ops, p.2.isScanning = true)
    (s : App) :
    (runSeq s ops).trace.countP Event.isUpdateSuccess +
        (if (runSeq s ops).app.point_cloud_available_ then 1 else 0) ≤
      (runSeq s ops).trace.countP Event.isStaging +
        (if s.point_cloud_available_ then 1 else 0) ∧
    (s.point_cloud_available_ = false →
      (runSeq s ops).trace.countP Event.isStaging = 0 →
      (runSeq s ops).trace.countP Event.isUpdate = 0) := by
  induction ops generalizing s with
  | nil => simp [runSeq]
  | cons p rest ih =>
    have hp := scanning_step p.1 s p.2 (hops p (List.mem_cons_self _ _))
    have hrest := ih (fun q hq => hops q (List.mem_cons_of_mem _ hq)) (p.2.run p.1 s).app
    obtain ⟨hret, hle, hnone, -⟩ := hp
    obtain ⟨hle2, hnone2⟩ := hrest
    simp only [runSeq, hret, if_true, List.countP_append]
    refine ⟨by omega, ?_⟩
    intro hs hst
    have h1 : (p.2.run p.1 s).trace.countP Event.isStaging = 0 := by omega
    have h2 : (runSeq (p.2.run p.1 s).app rest).trace.countP Event.isStaging = 0 := by omega
    obtain ⟨hu, hav⟩ := hnone hs h1
    have := hnone2 hav h2
    omega

/-- Claim C3: in every finite sequence of `onPointCloudAvailable`,
`onFrameAvailable`, `OnToggleButtonClicked` and `OnClearButtonClicked` calls on
a freshly constructed `App`, whatever the SDK answers, the calls of
`Tango3DR_update` that returned `TANGO_3DR_SUCCESS` are at most as many as the
stagings of a cloud. After a frame whose update succeeded
`point_cloud_available_` is false, and as long as no cloud is staged the calls
that follow do not call `Tango3DR_update`. -/
theorem staged_cloud_updates_at_most_once (u : App) (ops : List (Env × Op))
    (hops : ∀ p ∈ ops, p.2.isScanning = true) :
    (runSeq (App.App u) ops).trace.countP Event.isUpdateSuccess ≤
      (runSeq (App.App u) ops).trace.countP Event.isStaging ∧
    ∀ (pre : List (Env × Op)) (env : Env) (id : TangoCameraId) (buffer : TangoImageBuffer)
      (mid post : List (Env × Op)),
      ops = pre ++ (env, .onFrameAvailable id buffer) :: (mid ++ post) →
      0 < (onFrameAvailable env (runSeq (App.App u) pre).app id buffer).trace.countP
          Event.isUpdateSuccess →
      (onFrameAvailable env (runSeq (App.App u) pre).app id buffer).app.point_cloud_available_
          = false ∧
        ((runSeq (onFrameAvailable env (runSeq (App.App u) pre).app id buffer).app
            mid).trace.countP Event.isStaging = 0 →
          (runSeq (onFrameAvailable env (runSeq (App.App u) pre).app id buffer).app
            mid).trace.countP Event.isUpdate = 0) := by
  constructor
  · have h := (runSeq_scanning ops hops (App.App u)).1
    have h0 : (App.App u).point_cloud_available_ = false := rfl
    rw [h0] at h
    simp only [Bool.false_eq_true, if_false] at h
    omega
  · intro pre env id buffer mid post hsplit hsucc
    have hav := (scanning_step env (runSeq (App.App u) pre).app
      (.onFrameAvailable id buffer) rfl).2.2.2 hsucc
    refine ⟨hav, ?_⟩
    have hmid : ∀ p ∈ mid, p.2.isScanning = true := by
      intro p hp
      apply hops p
      rw [hsplit]
      simp [hp]
    exact (runSeq_scanning mid hmid _).2 hav

/-- The sample session stages one cloud; the first frame consumes it and the
second frame finds none. -/
theorem staged_cloud_updates_at_most_once_witness :
    (∀ p ∈ sampleSession, p.2.isScanning = true) ∧
    (runSeq (App.App App.fresh) sampleSession).trace.countP Event.isUpdateSuccess ≤
      (runSeq (App.App App.fresh) sampleSession).trace.countP Event.isStaging ∧
    (runSeq (App.App App.fresh) sampleSession).trace.countP Event.isUpdateSuccess = 1 :=
  ⟨by decide,
    (staged_cloud_updates_at_most_once App.fresh sampleSession (by decide)).1,
    by decide⟩

/-! ## The mutexes -/

/-- Claim C8: in every member function of `App` in `app.cc`, whatever the SDK
answers, on every path that returns each of the two mutexes is unlocked as
often as it is locked, is never unlocked while not held and never locked while
held. -/
theorem lock_balance (env : Env) (s : App) (op : Op) (m : Mutex)
    (hret : (op.run env s).returned = true) :
    (op.run env s).trace.countP (Event.isLock m) =
      (op.run env s).trace.countP (Event.isUnlock m) ∧
    lockDiscipline [] (op.run env s).trace = true := by
  cases op <;> cases m <;>
    simp only [Op.run, onPointCloudAvailable, onFrameAvailable, OnCreate,
      OnTangoServiceConnected, OnPause, OnSurfaceCreated, OnSurfaceChanged, OnDrawFrame,
      OnDrawFrame_camera, OnToggleButtonClicked, OnClearButtonClicked, Load, Save,
      Texturize] at hret ⊢ <;>
    (try split_ifs) <;>
    simp_all [lockDiscipline, heldAfter, Event.isLock, Event.isUnlock, lockDiscipline_calls,
      countP_calls, -List.countP_map]

/-- A colour frame that is merged takes `binder_mutex_` once and releases it once. -/
theorem lock_balance_witness :
    (Op.run Env.nominal App.staged
        (.onFrameAvailable .TANGO_CAMERA_COLOR sampleFrame)).returned = true ∧
    (Op.run Env.nominal App.staged
        (.onFrameAvailable .TANGO_CAMERA_COLOR sampleFrame)).trace.countP
          (Event.isLock .binder_mutex_) = 1 ∧
    ((Op.run Env.nominal App.staged
        (.onFrameAvailable .TANGO_CAMERA_COLOR sampleFrame)).trace.countP
          (Event.isLock .binder_mutex_) =
      (Op.run Env.nominal App.staged
        (.onFrameAvailable .TANGO_CAMERA_COLOR sampleFrame)).trace.countP
          (Event.isUnlock .binder_mutex_) ∧
      lockDiscipline [] (Op.run Env.nominal App.staged
        (.onFrameAvailable .TANGO_CAMERA_COLOR sampleFrame)).trace = true) :=
  ⟨by decide, by decide,
    lock_balance Env.nominal App.staged (.onFrameAvailable .TANGO_CAMERA_COLOR sampleFrame)
      .binder_mutex_ (by decide)⟩

/-- Claim C9: in every member function of `App` in `app.cc`, `binder_mutex_`
is never acquired while `render_mutex_` is held; whenever both are held,
`binder_mutex_` was acquired first and `render_mutex_` is released before
`binder_mutex_`. -/
theorem lock_order (env : Env) (s : App) (op : Op) :
    lockOrder [] (op.run env s).trace = true := by
  cases op <;>
    simp only [Op.run, onPointCloudAvailable, onFrameAvailable, OnCreate,
      OnTangoServiceConnected, OnPause, OnSurfaceCreated, OnSurfaceChanged, OnDrawFrame,
      OnDrawFrame_camera, OnToggleButtonClicked, OnClearButtonClicked, Load, Save,
      Texturize] <;>
    (try split_ifs) <;>
    simp [lockOrder, heldAfter, binderFirst, lockOrder_calls]

/-- Claim C5, as stated, fails: `onPointCloudAvailable` reads the shared flag
`t3dr_is_running_` before it takes `binder_mutex_`. -/
theorem flag_read_outside_lock :
    underBinder Event.isSharedAccess []
      (Op.run Env.nominal App.running (.onPointCloudAvailable sampleCloud)).trace = false := by
  decide

/-- Claim C5, amended: in every member function of `App` in `app.cc`, every
read and every write of `point_cloud_available_`, `point_cloud_matrix_`,
`image_matrix` and `image_rotation`, and every write of `t3dr_is_running_`,
happens while `binder_mutex_` is held. The flag `t3dr_is_running_` is read only
as the first event of `onPointCloudAvailable` and of `onFrameAvailable` for a
colour frame, before any mutex is taken. -/
theorem shared_state_guarded (env : Env) (s : App) (op : Op) :
    underBinder (fun e => e.isSharedAccess && !e.isFlagRead) [] (op.run env s).trace = true ∧
    (op.run env s).trace.tail.countP Event.isFlagRead = 0 ∧
    ((op.run env s).trace.countP Event.isFlagRead =
      match op with
      | .onPointCloudAvailable _ => 1
      | .onFrameAvailable id _ => if id = .TANGO_CAMERA_COLOR then 1 else 0
      | _ => 0) := by
  cases op <;>
    simp only [Op.run, onPointCloudAvailable, onFrameAvailable, OnCreate,
      OnTangoServiceConnected, OnPause, OnSurfaceCreated, OnSurfaceChanged, OnDrawFrame,
      OnDrawFrame_camera, OnToggleButtonClicked, OnClearButtonClicked, Load, Save,
      Texturize] <;>
    (try split_ifs) <;>
    simp_all [underBinder, heldAfter, Event.isSharedAccess, Event.isFlagRead, Field.isShared,
      underBinder_calls, countP_calls, -List.countP_map]

/-! ## Saving and texturing -/

/-- Claim C6, as stated, fails: with a non-empty dataset `App::Texturize` does
not call `texturize.Process`. -/
theorem texturize_never_processes :
    String.isEmpty "dataset" = false ∧
    Event.call (.texturize_Process "scan.obj") ∉
      (Texturize Env.nominal App.staged "scan.obj" "dataset").trace := by
  decide

/-- Claim C6, amended: for every filename and every dataset `App::Texturize`
calls no member function of `texturize`; holding both mutexes it clears `scan`
and `tango`, reads the model from the file and writes it back to the file. -/
theorem texturize_reloads_model (env : Env) (s : App) (filename dataset : String) :
    (Texturize env s filename dataset).trace =
      [.lock .binder_mutex_, .lock .render_mutex_,
        .call .scan_Clear, .call .tango_Clear,
        .call (.File3d_ReadModel filename false kSubdivisionSize),
        .call (.File3d_WriteModel filename true),
        .unlock .render_mutex_, .unlock .binder_mutex_] ∧
    (Texturize env s filename dataset).trace.countP Event.isTexturize = 0 ∧
    (Texturize env s filename dataset).app.texturize = s.texturize := by
  simp [Texturize, Event.isTexturize]

/-- Claim C7: `App::Save` calls `texturize.Process(filename)` exactly when the
dataset is non-empty and `texturize.Init` returns true; then
`texturize.ApplyFrames` is called once, before `Process`. With an empty dataset
no member function of `texturize` is called and nothing is written. In every
case `scan`, `t3dr_is_running_` and `point_cloud_available_` are unchanged. -/
theorem save_texturizes (env : Env) (s : App) (filename dataset : String) :
    ((Save env s filename dataset).trace.filter Event.isTexturize =
      if dataset.isEmpty then []
      else if (env.texturize_Init s.texturize s.tango.Context dataset).2 then
        [.call (.texturize_Init s.tango.Context dataset true),
          .call (.texturize_ApplyFrames s.tango.Dataset),
          .call (.texturize_Process filename)]
      else [.call (.texturize_Init s.tango.Context dataset false)]) ∧
    (Event.call (.texturize_Process filename) ∈ (Save env s filename dataset).trace ↔
      dataset.isEmpty = false ∧
        (env.texturize_Init s.texturize s.tango.Context dataset).2 = true) ∧
    ((Save env s filename dataset).trace.countP Event.isFileWrite =
      if dataset.isEmpty then 0
      else if (env.texturize_Init s.texturize s.tango.Context dataset).2 then 1 else 0) ∧
    (Save env s filename dataset).app.scan = s.scan ∧
    (Save env s filename dataset).app.t3dr_is_running_ = s.t3dr_is_running_ ∧
    (Save env s filename dataset).app.point_cloud_available_ = s.point_cloud_available_ := by
  simp only [Save]
  split_ifs <;> simp_all [Event.isTexturize, Event.isFileWrite, List.filter]

end oc
